import Mathlib

/-
  Verification development for the N-body gravitational simulation
  ("Three Body Problem" module) of the scienterrific visualization suite.

  The simulation code lives in src/components/visualizations/ThreeBodyProblem.tsx.
  JavaScript numbers are modelled as real numbers; the component's reactive
  state is modelled as an explicit record, and each event handler as a state
  transition function.
-/

noncomputable section

/-- A simulated point mass, mirroring the `Body` interface of the source. -/
structure Body where
  id : ℤ
  x : ℝ
  y : ℝ
  vx : ℝ
  vy : ℝ
  mass : ℝ
  visualRadius : ℝ
  color : String
  trail : List (ℝ × ℝ)

instance : Inhabited Body :=
  ⟨{ id := 0, x := 0, y := 0, vx := 0, vy := 0, mass := 0,
     visualRadius := 0, color := "", trail := [] }⟩

/-- Gravitational constant of the module: `const G = 0.1`. -/
def G : ℝ := 0.1

/-- Trail length bound of the module: `const maxTrail = 2000`. -/
def maxTrail : ℕ := 2000

/-- Palette used when a user-placed body is finalized: `const COLORS = [...]`. -/
def COLORS : List String :=
  ["#f97316", "#3b82f6", "#ef4444", "#a855f7", "#22c55e", "#ffffff"]

/-- The Mass Model: `calculateLogMass = (radius) => Math.pow(1.15, radius) * 5`. -/
def calculateLogMass (radius : ℝ) : ℝ :=
  Real.rpow 1.15 radius * 5

/-- JavaScript `array.slice(-n)`: the last `n` elements of the array. -/
def sliceLast {α : Type} (n : ℕ) (l : List α) : List α :=
  l.drop (l.length - n)

/-- The trail bookkeeping done at the top of one tick of `update`:
`{ ...b, trail: [...b.trail, { x: b.x, y: b.y }].slice(-maxTrail) }`. -/
def addTrail (b : Body) : Body :=
  { b with trail := sliceLast maxTrail (b.trail ++ [(b.x, b.y)]) }

/-- x-component of the gravitational force exerted on `b1` by `b2`, as in the
inner loop of `update`: `distSq = dx*dx + dy*dy + 500`,
`Force = (G * b1.mass * b2.mass) / distSq`, contribution `Force * (dx / dist)`. -/
def pairForceX (b1 b2 : Body) : ℝ :=
  let dx := b2.x - b1.x
  let dy := b2.y - b1.y
  let distSq := dx * dx + dy * dy + 500
  let dist := Real.sqrt distSq
  let force := (G * b1.mass * b2.mass) / distSq
  force * (dx / dist)

/-- y-component of the gravitational force exerted on `b1` by `b2`. -/
def pairForceY (b1 b2 : Body) : ℝ :=
  let dx := b2.x - b1.x
  let dy := b2.y - b1.y
  let distSq := dx * dx + dy * dy + 500
  let dist := Real.sqrt distSq
  let force := (G * b1.mass * b2.mass) / distSq
  force * (dy / dist)

/-- Accumulated x-force on the body at index `i`, skipping `j === i` as the
source's `continue` does (a zero contribution). -/
def netFx (bs : List Body) (i : ℕ) : ℝ :=
  Finset.sum (Finset.range bs.length) fun j =>
    if j = i then 0 else pairForceX (bs.getD i default) (bs.getD j default)

/-- Accumulated y-force on the body at index `i`. -/
def netFy (bs : List Body) (i : ℕ) : ℝ :=
  Finset.sum (Finset.range bs.length) fun j =>
    if j = i then 0 else pairForceY (bs.getD i default) (bs.getD j default)

/-- Velocity update of the body at index `i`:
`ax = fx / b1.mass; b1.vx += ax * timeStep` (and likewise for y). -/
def stepVel (bs : List Body) (dt : ℝ) (i : ℕ) (b : Body) : Body :=
  { b with
    vx := b.vx + (netFx bs i / b.mass) * dt,
    vy := b.vy + (netFy bs i / b.mass) * dt }

/-- Position update: `b.x += b.vx * timeStep; b.y += b.vy * timeStep`. -/
def stepPos (dt : ℝ) (b : Body) : Body :=
  { b with x := b.x + b.vx * dt, y := b.y + b.vy * dt }

/-- One Integrator tick (the `update` closure of the simulation loop): copy
every body appending the pre-update position to its bounded trail, then update
every velocity from the pairwise forces (positions are only read in this
pass), then update every position from the integrated velocities. -/
def update (bs : List Body) (dt : ℝ) : List Body :=
  let nextBodies := bs.map addTrail
  let withVel := (List.range nextBodies.length).map fun i =>
    stepVel nextBodies dt i (nextBodies.getD i default)
  withVel.map (stepPos dt)

/-- `n` consecutive Integrator ticks at a fixed timestep. -/
def tickN : ℕ → List Body → ℝ → List Body
  | 0, bs, _ => bs
  | n + 1, bs, dt => tickN n (update bs dt) dt

/-- The two bodies built by `createOrbitalPair`, given the canvas size `w × h`
and the `Date.now()` value used for ids. -/
def createOrbitalPair (w h : ℝ) (now : ℤ) : List Body :=
  let centerX := w / 2
  let centerY := h / 2
  let orbitRadius : ℝ := 200
  let centralRadius : ℝ := 60
  let centralMass := calculateLogMass centralRadius
  let orbitingRadius : ℝ := 25
  let orbitingMass := calculateLogMass orbitingRadius
  let orbitalSpeed := Real.sqrt ((G * centralMass) / orbitRadius)
  let centralBody : Body :=
    { id := now, x := centerX, y := centerY, vx := 0, vy := 0,
      mass := centralMass, visualRadius := centralRadius,
      color := "#f97316", trail := [] }
  let orbitingBody : Body :=
    { id := now + 1, x := centerX + orbitRadius, y := centerY, vx := 0,
      vy := orbitalSpeed, mass := orbitingMass, visualRadius := orbitingRadius,
      color := "#3b82f6", trail := [] }
  [centralBody, orbitingBody]

/-- The two bodies built by `createBinarySystem`. -/
def createBinarySystem (w h : ℝ) (now : ℤ) : List Body :=
  let centerX := w / 2
  let centerY := h / 2
  let separation : ℝ := 250
  let radius1 : ℝ := 40
  let radius2 : ℝ := 35
  let mass1 := calculateLogMass radius1
  let mass2 := calculateLogMass radius2
  let totalMass := mass1 + mass2
  let r1 := (mass2 / totalMass) * separation
  let r2 := (mass1 / totalMass) * separation
  let omega := Real.sqrt ((G * totalMass) / separation ^ (3 : ℕ))
  let v1 := omega * r1
  let v2 := omega * r2
  let body1 : Body :=
    { id := now, x := centerX - r1, y := centerY, vx := 0, vy := -v1,
      mass := mass1, visualRadius := radius1, color := "#ef4444", trail := [] }
  let body2 : Body :=
    { id := now + 1, x := centerX + r2, y := centerY, vx := 0, vy := v2,
      mass := mass2, visualRadius := radius2, color := "#a855f7", trail := [] }
  [body1, body2]

/-- The three equal-mass bodies built by `createFigure8`. -/
def figure8Bodies (w h : ℝ) (now : ℤ) : List Body :=
  let centerX := w / 2
  let centerY := h / 2
  let radius : ℝ := 30
  let mass := calculateLogMass radius
  let xOffset : ℝ := 97
  let vOffset : ℝ := 0.35
  let body1 : Body :=
    { id := now, x := centerX - xOffset, y := centerY, vx := 0.093,
      vy := 0.125 + vOffset, mass := mass, visualRadius := radius,
      color := "#f97316", trail := [] }
  let body2 : Body :=
    { id := now + 1, x := centerX + xOffset, y := centerY, vx := 0.093,
      vy := 0.125 + vOffset, mass := mass, visualRadius := radius,
      color := "#3b82f6", trail := [] }
  let body3 : Body :=
    { id := now + 2, x := centerX, y := centerY, vx := -0.186,
      vy := -0.25 - 2 * vOffset, mass := mass, visualRadius := radius,
      color := "#22c55e", trail := [] }
  [body1, body2, body3]

/-- The placement phase tracked by the component's `mode` state:
`'idle' | 'position' | 'velocity'`. -/
inductive Mode where
  | idle : Mode
  | position : Mode
  | velocity : Mode
deriving DecidableEq

/-- The pending body during placement: the component's `tempBody` state. -/
structure TempBody where
  x : ℝ
  y : ℝ
  r : ℝ

/-- The component state relevant to the placement protocol and run control. -/
structure SimState where
  bodies : List Body
  isRunning : Bool
  mode : Mode
  tempBody : Option TempBody
  tempVelocity : Option (ℝ × ℝ)

/-- Component state right after mount: no bodies, not running, idle. -/
def initialState : SimState :=
  { bodies := [], isRunning := false, mode := Mode.idle,
    tempBody := none, tempVelocity := none }

/-- `handleMouseDown` at canvas point `(x, y)`: ignored while running; from
idle mode it anchors a pending body of minimum radius 10 and enters position
mode. -/
def handleMouseDown (x y : ℝ) (s : SimState) : SimState :=
  if s.isRunning then s
  else
    match s.mode with
    | Mode.idle =>
        { s with tempBody := some { x := x, y := y, r := 10 },
                 mode := Mode.position }
    | _ => s

/-- `handleMouseMove` at canvas point `(x, y)`: ignored while running; in
position mode it sets the pending radius to the pointer's distance from the
anchor clamped by `Math.max(10, Math.min(100, dist))`; in velocity mode it
records the pointer as the velocity target. -/
def handleMouseMove (x y : ℝ) (s : SimState) : SimState :=
  if s.isRunning then s
  else
    match s.mode, s.tempBody with
    | Mode.position, some tb =>
        let dist := Real.sqrt ((x - tb.x) ^ (2 : ℕ) + (y - tb.y) ^ (2 : ℕ))
        { s with tempBody := some { tb with r := max 10 (min 100 dist) } }
    | Mode.velocity, some _ => { s with tempVelocity := some (x, y) }
    | _, _ => s

/-- `handleMouseUp`: ignored while running; in position mode (with a pending
body) it fixes the radius and enters velocity mode; in velocity mode it
finalizes and appends the new body only when both `tempBody` and
`tempVelocity` are set, with velocity `(target - anchor) * 0.03`. -/
def handleMouseUp (now : ℤ) (s : SimState) : SimState :=
  if s.isRunning then s
  else
    match s.mode, s.tempBody, s.tempVelocity with
    | Mode.position, some _, _ => { s with mode := Mode.velocity }
    | Mode.velocity, some tb, some tv =>
        let mass := calculateLogMass tb.r
        let newBody : Body :=
          { id := now, x := tb.x, y := tb.y,
            vx := (tv.1 - tb.x) * 0.03, vy := (tv.2 - tb.y) * 0.03,
            mass := mass, visualRadius := tb.r,
            color := COLORS.getD (s.bodies.length % COLORS.length) "",
            trail := [] }
        { s with bodies := s.bodies ++ [newBody], tempBody := none,
                 tempVelocity := none, mode := Mode.idle }
    | _, _, _ => s

/-- Clicking the FIGURE-8 scenario button: the button carries
`disabled={isRunning}`, so the click is ignored while running; otherwise
`createFigure8` replaces the registry with the three figure-eight bodies,
returns the placement protocol to idle and clears the pending values. The
`isRunning` flag is not written by `createFigure8`. -/
def createFigure8 (w h : ℝ) (now : ℤ) (s : SimState) : SimState :=
  if s.isRunning then s
  else
    { s with bodies := figure8Bodies w h now, mode := Mode.idle,
             tempBody := none, tempVelocity := none }

/-- Clicking the ENGAGE/HALT button: it carries
`disabled={bodies.length < 2}` and `onClick={() => setIsRunning(!isRunning)}`,
so with fewer than 2 bodies the click is ignored, otherwise the running flag
is toggled. -/
def toggleRunning (s : SimState) : SimState :=
  if s.bodies.length < 2 then s
  else { s with isRunning := !s.isRunning }

/-- The softening constant named by the specification (design value 500). -/
def SOFTENING : ℝ := 500

/-- Net x-force on body `i` written from the specification's wording: the sum
over every other body `j` of `forceMagnitude = G * m_i * m_j / distSquared`
with `distSquared = dx^2 + dy^2 + SOFTENING`, weighted by `dx / dist`. -/
def specNetForceX (bs : List Body) (i : ℕ) : ℝ :=
  Finset.sum ((Finset.range bs.length).filter fun j => j ≠ i) fun j =>
    let bi := bs.getD i default
    let bj := bs.getD j default
    let dx := bj.x - bi.x
    let dy := bj.y - bi.y
    let distSquared := dx ^ (2 : ℕ) + dy ^ (2 : ℕ) + SOFTENING
    let forceMagnitude := G * bi.mass * bj.mass / distSquared
    forceMagnitude * (dx / Real.sqrt distSquared)

/-- Net y-force on body `i` written from the specification's wording. -/
def specNetForceY (bs : List Body) (i : ℕ) : ℝ :=
  Finset.sum ((Finset.range bs.length).filter fun j => j ≠ i) fun j =>
    let bi := bs.getD i default
    let bj := bs.getD j default
    let dx := bj.x - bi.x
    let dy := bj.y - bi.y
    let distSquared := dx ^ (2 : ℕ) + dy ^ (2 : ℕ) + SOFTENING
    let forceMagnitude := G * bi.mass * bj.mass / distSquared
    forceMagnitude * (dy / Real.sqrt distSquared)

end

theorem getD_map_of_lt {α β : Type} (f : α → β) (l : List α) (i : ℕ)
    (h : i < l.length) (d : β) (d' : α) :
    (l.map f).getD i d = f (l.getD i d') := by
  simp [List.getD_eq_getElem?_getD, List.getElem?_eq_getElem, h,
    List.getElem?_map]

theorem getD_range_of_lt (n i : ℕ) (h : i < n) (d : ℕ) :
    (List.range n).getD i d = i := by
  simp [List.getD_eq_getElem?_getD, List.getElem?_eq_getElem, h]

theorem length_update (bs : List Body) (dt : ℝ) :
    (update bs dt).length = bs.length := by
  simp [update]

theorem update_getD (bs : List Body) (dt : ℝ) (i : ℕ) (hi : i < bs.length) :
    (update bs dt).getD i default
      = stepPos dt
          (stepVel (bs.map addTrail) dt i (addTrail (bs.getD i default))) := by
  unfold update
  rw [getD_map_of_lt (stepPos dt) _ i (by simpa using hi) default default,
    getD_map_of_lt _ _ i (by simpa using hi) default 0,
    getD_range_of_lt _ i (by simpa using hi),
    getD_map_of_lt addTrail bs i hi default default]

theorem pairForceX_addTrail (a b : Body) :
    pairForceX (addTrail a) (addTrail b) = pairForceX a b := by
  simp [pairForceX, addTrail]

theorem pairForceY_addTrail (a b : Body) :
    pairForceY (addTrail a) (addTrail b) = pairForceY a b := by
  simp [pairForceY, addTrail]

theorem netFx_eq_spec (bs : List Body) (i : ℕ) (hi : i < bs.length) :
    netFx (bs.map addTrail) i = specNetForceX bs i := by
  unfold netFx specNetForceX
  rw [Finset.sum_filter, List.length_map]
  refine Finset.sum_congr rfl fun j hj => ?_
  have hjlt : j < bs.length := Finset.mem_range.1 hj
  by_cases hji : j = i
  · simp [hji]
  · rw [if_pos hji, if_neg hji,
      getD_map_of_lt addTrail bs i hi default default,
      getD_map_of_lt addTrail bs j hjlt default default,
      pairForceX_addTrail]
    unfold pairForceX
    rw [SOFTENING]
    ring_nf

theorem addTrail_x (b : Body) : (addTrail b).x = b.x := by simp [addTrail]

theorem addTrail_y (b : Body) : (addTrail b).y = b.y := by simp [addTrail]

theorem addTrail_vx (b : Body) : (addTrail b).vx = b.vx := by simp [addTrail]

theorem addTrail_vy (b : Body) : (addTrail b).vy = b.vy := by simp [addTrail]

theorem addTrail_id (b : Body) : (addTrail b).id = b.id := by simp [addTrail]

theorem addTrail_mass (b : Body) : (addTrail b).mass = b.mass := by simp [addTrail]

theorem addTrail_visualRadius (b : Body) :
    (addTrail b).visualRadius = b.visualRadius := by simp [addTrail]

theorem addTrail_color (b : Body) : (addTrail b).color = b.color := by simp [addTrail]

theorem addTrail_trail (b : Body) :
    (addTrail b).trail = sliceLast maxTrail (b.trail ++ [(b.x, b.y)]) := by simp [addTrail]

theorem stepVel_x (bs : List Body) (dt : ℝ) (i : ℕ) (b : Body) :
    (stepVel bs dt i b).x = b.x := rfl

theorem stepVel_y (bs : List Body) (dt : ℝ) (i : ℕ) (b : Body) :
    (stepVel bs dt i b).y = b.y := rfl

theorem stepVel_vx (bs : List Body) (dt : ℝ) (i : ℕ) (b : Body) :
    (stepVel bs dt i b).vx = b.vx + (netFx bs i / b.mass) * dt := rfl

theorem stepVel_vy (bs : List Body) (dt : ℝ) (i : ℕ) (b : Body) :
    (stepVel bs dt i b).vy = b.vy + (netFy bs i / b.mass) * dt := rfl

theorem stepVel_id (bs : List Body) (dt : ℝ) (i : ℕ) (b : Body) :
    (stepVel bs dt i b).id = b.id := rfl

theorem stepVel_mass (bs : List Body) (dt : ℝ) (i : ℕ) (b : Body) :
    (stepVel bs dt i b).mass = b.mass := rfl

theorem stepVel_visualRadius (bs : List Body) (dt : ℝ) (i : ℕ) (b : Body) :
    (stepVel bs dt i b).visualRadius = b.visualRadius := rfl

theorem stepVel_color (bs : List Body) (dt : ℝ) (i : ℕ) (b : Body) :
    (stepVel bs dt i b).color = b.color := rfl

theorem stepVel_trail (bs : List Body) (dt : ℝ) (i : ℕ) (b : Body) :
    (stepVel bs dt i b).trail = b.trail := rfl

theorem stepPos_x (dt : ℝ) (b : Body) :
    (stepPos dt b).x = b.x + b.vx * dt := rfl

theorem stepPos_y (dt : ℝ) (b : Body) :
    (stepPos dt b).y = b.y + b.vy * dt := rfl

theorem stepPos_vx (dt : ℝ) (b : Body) : (stepPos dt b).vx = b.vx := rfl

theorem stepPos_vy (dt : ℝ) (b : Body) : (stepPos dt b).vy = b.vy := rfl

theorem stepPos_id (dt : ℝ) (b : Body) : (stepPos dt b).id = b.id := rfl

theorem stepPos_mass (dt : ℝ) (b : Body) : (stepPos dt b).mass = b.mass := rfl

theorem stepPos_visualRadius (dt : ℝ) (b : Body) :
    (stepPos dt b).visualRadius = b.visualRadius := rfl

theorem stepPos_color (dt : ℝ) (b : Body) :
    (stepPos dt b).color = b.color := rfl

theorem stepPos_trail (dt : ℝ) (b : Body) :
    (stepPos dt b).trail = b.trail := rfl

theorem sliceLast_length_le {α : Type} (n : ℕ) (l : List α) :
    (sliceLast n l).length ≤ n := by
  simp [sliceLast]
  omega

theorem netFy_eq_spec (bs : List Body) (i : ℕ) (hi : i < bs.length) :
    netFy (bs.map addTrail) i = specNetForceY bs i := by
  unfold netFy specNetForceY
  rw [Finset.sum_filter, List.length_map]
  refine Finset.sum_congr rfl fun j hj => ?_
  have hjlt : j < bs.length := Finset.mem_range.1 hj
  by_cases hji : j = i
  · simp [hji]
  · rw [if_pos hji, if_neg hji,
      getD_map_of_lt addTrail bs i hi default default,
      getD_map_of_lt addTrail bs j hjlt default default,
      pairForceY_addTrail]
    unfold pairForceY
    rw [SOFTENING]
    ring_nf



noncomputable def exBody1 : Body :=
  { id := 0, x := 0, y := 0, vx := 0, vy := 0, mass := 5,
    visualRadius := 10, color := "#f97316", trail := [] }

noncomputable def exBody2 : Body :=
  { id := 1, x := 100, y := 0, vx := 0, vy := 1, mass := 7,
    visualRadius := 12, color := "#3b82f6", trail := [] }

/-- A concrete two-body registry used to instantiate general theorems. -/
noncomputable def exReg : List Body := [exBody1, exBody2]

/-- Claim C1: one Integrator tick applied to a registry of at least 2 bodies
and a positive timeStep computes for each body `i` the pairwise force from
every other body `j` with `distSquared = dx^2 + dy^2 + SOFTENING` and
`forceMagnitude = G * m_i * m_j / distSquared`, components weighted by
`dx/dist` and `dy/dist`; every velocity is updated by `(netForce/mass) *
timeStep` before any position is updated, and every position is then updated
using the newly computed velocity (semi-implicit Euler ordering). -/
theorem integrator_tick_forces_and_ordering (bs : List Body) (dt : ℝ)
    (hn : 2 ≤ bs.length) (hdt : 0 < dt) (i : ℕ) (hi : i < bs.length) :
    ((update bs dt).getD i default).vx
        = (bs.getD i default).vx
          + (specNetForceX bs i / (bs.getD i default).mass) * dt
    ∧ ((update bs dt).getD i default).vy
        = (bs.getD i default).vy
          + (specNetForceY bs i / (bs.getD i default).mass) * dt
    ∧ ((update bs dt).getD i default).x
        = (bs.getD i default).x + ((update bs dt).getD i default).vx * dt
    ∧ ((update bs dt).getD i default).y
        = (bs.getD i default).y + ((update bs dt).getD i default).vy * dt := by
  rw [update_getD bs dt i hi]
  rw [stepPos_vx, stepPos_vy, stepPos_x, stepPos_y, stepVel_x, stepVel_y,
    stepVel_vx, stepVel_vy, addTrail_x, addTrail_y, addTrail_vx, addTrail_vy,
    addTrail_mass, netFx_eq_spec bs i hi, netFy_eq_spec bs i hi]
  exact ⟨rfl, rfl, rfl, rfl⟩

/-- Witness for C1 at the concrete registry `exReg` with timestep 1 and
body index 0. -/
theorem integrator_tick_forces_and_ordering_witness :
    2 ≤ exReg.length ∧ (0 : ℝ) < 1 ∧ 0 < exReg.length ∧
      (((update exReg 1).getD 0 default).vx
          = (exReg.getD 0 default).vx
            + (specNetForceX exReg 0 / (exReg.getD 0 default).mass) * 1
       ∧ ((update exReg 1).getD 0 default).vy
          = (exReg.getD 0 default).vy
            + (specNetForceY exReg 0 / (exReg.getD 0 default).mass) * 1
       ∧ ((update exReg 1).getD 0 default).x
          = (exReg.getD 0 default).x + ((update exReg 1).getD 0 default).vx * 1
       ∧ ((update exReg 1).getD 0 default).y
          = (exReg.getD 0 default).y
            + ((update exReg 1).getD 0 default).vy * 1) :=
  ⟨by decide, by norm_num, by decide,
    integrator_tick_forces_and_ordering exReg 1 (by decide) (by norm_num) 0
      (by decide)⟩

/-- Claim C9: the Integrator is deterministic: two invocations of one tick on
identical registry snapshots and identical timesteps produce identical output
registries. -/
theorem integrator_tick_deterministic (bs1 bs2 : List Body) (dt1 dt2 : ℝ)
    (hb : bs1 = bs2) (hdt : dt1 = dt2) : update bs1 dt1 = update bs2 dt2 := by
  rw [hb, hdt]

/-- Witness for C9 at the concrete registry `exReg` with timestep 1. -/
theorem integrator_tick_deterministic_witness :
    exReg = exReg ∧ (1 : ℝ) = 1 ∧ update exReg 1 = update exReg 1 :=
  ⟨rfl, rfl, integrator_tick_deterministic exReg exReg 1 1 rfl rfl⟩

/-- Claim C10: one Integrator tick changes only position, velocity and trail:
the registry keeps its length, and the body at every index keeps its id,
mass, visualRadius and color (no body is created, destroyed or reordered). -/
theorem integrator_tick_frame (bs : List Body) (dt : ℝ) (i : ℕ)
    (hi : i < bs.length) :
    (update bs dt).length = bs.length
    ∧ ((update bs dt).getD i default).id = (bs.getD i default).id
    ∧ ((update bs dt).getD i default).mass = (bs.getD i default).mass
    ∧ ((update bs dt).getD i default).visualRadius
        = (bs.getD i default).visualRadius
    ∧ ((update bs dt).getD i default).color = (bs.getD i default).color := by
  refine ⟨length_update bs dt, ?_, ?_, ?_, ?_⟩ <;>
    rw [update_getD bs dt i hi] <;>
    simp [stepPos_id, stepPos_mass, stepPos_visualRadius, stepPos_color,
      stepVel_id, stepVel_mass, stepVel_visualRadius, stepVel_color,
      addTrail_id, addTrail_mass, addTrail_visualRadius, addTrail_color]

/-- Witness for C10 at the concrete registry `exReg`, timestep 1, index 1. -/
theorem integrator_tick_frame_witness :
    1 < exReg.length ∧
      ((update exReg 1).length = exReg.length
       ∧ ((update exReg 1).getD 1 default).id = (exReg.getD 1 default).id
       ∧ ((update exReg 1).getD 1 default).mass = (exReg.getD 1 default).mass
       ∧ ((update exReg 1).getD 1 default).visualRadius
           = (exReg.getD 1 default).visualRadius
       ∧ ((update exReg 1).getD 1 default).color
           = (exReg.getD 1 default).color) :=
  ⟨by decide, integrator_tick_frame exReg 1 1 (by decide)⟩

theorem trail_le_update (bs : List Body) (dt : ℝ) :
    ∀ b ∈ update bs dt, b.trail.length ≤ maxTrail := by
  intro b hb
  unfold update at hb
  rw [List.mem_map] at hb
  obtain ⟨c, hc, rfl⟩ := hb
  rw [List.mem_map] at hc
  obtain ⟨j, hj, rfl⟩ := hc
  have hjlt : j < bs.length := by
    simpa using List.mem_range.1 hj
  rw [stepPos_trail, stepVel_trail,
    getD_map_of_lt addTrail bs j hjlt default default, addTrail_trail]
  exact sliceLast_length_le _ _

theorem trail_le_tickN (n : ℕ) :
    ∀ (bs : List Body) (dt : ℝ),
      (∀ b ∈ bs, b.trail.length ≤ maxTrail) →
      ∀ b ∈ tickN n bs dt, b.trail.length ≤ maxTrail := by
  induction n with
  | zero => intro bs dt h; simpa [tickN] using h
  | succ n ih =>
      intro bs dt h b hb
      rw [show tickN (n + 1) bs dt = tickN n (update bs dt) dt from rfl] at hb
      exact ih (update bs dt) dt (trail_le_update bs dt) b hb

/-- Claim C5: starting from a registry whose trails are within the bound (as
every creation path produces), after any number of Integrator ticks every
body's trail has length at most `maxTrail` (the spec's N_TRAIL); moreover one
tick appends the body's pre-update position to its trail and keeps only the
last `maxTrail` entries, discarding the oldest (front) entries first. -/
theorem trail_bound_and_append (bs : List Body) (dt : ℝ) (n : ℕ) (i : ℕ)
    (hinit : ∀ b ∈ bs, b.trail.length ≤ maxTrail) (hi : i < bs.length) :
    (∀ b ∈ tickN n bs dt, b.trail.length ≤ maxTrail)
    ∧ ((update bs dt).getD i default).trail
        = sliceLast maxTrail
            ((bs.getD i default).trail
              ++ [((bs.getD i default).x, (bs.getD i default).y)]) := by
  refine ⟨trail_le_tickN n bs dt hinit, ?_⟩
  rw [update_getD bs dt i hi, stepPos_trail, stepVel_trail, addTrail_trail]

/-- Witness for C5 at the concrete registry `exReg`, timestep 1, three ticks,
body index 0. -/
theorem trail_bound_and_append_witness :
    (∀ b ∈ exReg, b.trail.length ≤ maxTrail) ∧ 0 < exReg.length ∧
      ((∀ b ∈ tickN 3 exReg 1, b.trail.length ≤ maxTrail)
       ∧ ((update exReg 1).getD 0 default).trail
           = sliceLast maxTrail
               ((exReg.getD 0 default).trail
                 ++ [((exReg.getD 0 default).x, (exReg.getD 0 default).y)])) :=
  ⟨by decide, by decide,
    trail_bound_and_append exReg 1 3 0 (by decide) (by decide)⟩

theorem createOrbitalPair_getD_zero (w h : ℝ) (now : ℤ) :
    (createOrbitalPair w h now).getD 0 default
      = { id := now, x := w / 2, y := h / 2, vx := 0, vy := 0,
          mass := calculateLogMass 60, visualRadius := 60,
          color := "#f97316", trail := [] } := by
  simp [createOrbitalPair]

theorem createOrbitalPair_getD_one (w h : ℝ) (now : ℤ) :
    (createOrbitalPair w h now).getD 1 default
      = { id := now + 1, x := w / 2 + 200, y := h / 2, vx := 0,
          vy := Real.sqrt ((G * calculateLogMass 60) / 200),
          mass := calculateLogMass 25, visualRadius := 25,
          color := "#3b82f6", trail := [] } := by
  simp [createOrbitalPair]

/-- Claim C2: the orbital-pair generator produces exactly two bodies: a
central body with velocity exactly zero, and an orbiting body at distance
`r = 200` whose speed equals the circular-orbit speed
`sqrt(G * M_central / r)` exactly, directed tangentially (perpendicular to
the line joining the bodies), with `G` and the Mass Model the very constants
the Integrator uses. -/
theorem createOrbitalPair_circular_orbit (w h : ℝ) (now : ℤ) :
    (createOrbitalPair w h now).length = 2
    ∧ ((createOrbitalPair w h now).getD 0 default).vx = 0
    ∧ ((createOrbitalPair w h now).getD 0 default).vy = 0
    ∧ Real.sqrt
        ((((createOrbitalPair w h now).getD 1 default).x
            - ((createOrbitalPair w h now).getD 0 default).x) ^ (2 : ℕ)
          + (((createOrbitalPair w h now).getD 1 default).y
              - ((createOrbitalPair w h now).getD 0 default).y) ^ (2 : ℕ))
        = 200
    ∧ Real.sqrt
        (((createOrbitalPair w h now).getD 1 default).vx ^ (2 : ℕ)
          + ((createOrbitalPair w h now).getD 1 default).vy ^ (2 : ℕ))
        = Real.sqrt
            (G * ((createOrbitalPair w h now).getD 0 default).mass / 200)
    ∧ ((createOrbitalPair w h now).getD 1 default).vx
          * (((createOrbitalPair w h now).getD 1 default).x
              - ((createOrbitalPair w h now).getD 0 default).x)
        + ((createOrbitalPair w h now).getD 1 default).vy
          * (((createOrbitalPair w h now).getD 1 default).y
              - ((createOrbitalPair w h now).getD 0 default).y) = 0
    ∧ ((createOrbitalPair w h now).getD 0 default).mass = calculateLogMass 60
    ∧ ((createOrbitalPair w h now).getD 1 default).mass
        = calculateLogMass 25 := by
  rw [createOrbitalPair_getD_zero, createOrbitalPair_getD_one]
  refine ⟨by simp [createOrbitalPair], rfl, rfl, ?_, ?_, by ring, rfl, rfl⟩
  · rw [show (w / 2 + 200 - w / 2) ^ (2 : ℕ) + (h / 2 - h / 2) ^ (2 : ℕ)
        = (200 : ℝ) ^ (2 : ℕ) by ring]
    exact Real.sqrt_sq (by norm_num)
  · rw [show (0 : ℝ) ^ (2 : ℕ)
          + Real.sqrt ((G * calculateLogMass 60) / 200) ^ (2 : ℕ)
        = Real.sqrt ((G * calculateLogMass 60) / 200) ^ (2 : ℕ) by ring]
    rw [Real.sqrt_sq (Real.sqrt_nonneg _)]

theorem calculateLogMass_pos (r : ℝ) : 0 < calculateLogMass r :=
  mul_pos (Real.rpow_pos_of_pos (by norm_num) r) (by norm_num)

theorem calculateLogMass_strictMono {r1 r2 : ℝ} (h : r1 < r2) :
    calculateLogMass r1 < calculateLogMass r2 := by
  unfold calculateLogMass
  exact mul_lt_mul_of_pos_right
    ((Real.rpow_lt_rpow_left_iff (by norm_num)).2 h) (by norm_num)

theorem createBinarySystem_getD_zero (w h : ℝ) (now : ℤ) :
    (createBinarySystem w h now).getD 0 default
      = { id := now,
          x := w / 2
            - calculateLogMass 35
                / (calculateLogMass 40 + calculateLogMass 35) * 250,
          y := h / 2, vx := 0,
          vy := -(Real.sqrt
              (G * (calculateLogMass 40 + calculateLogMass 35)
                / 250 ^ (3 : ℕ))
            * (calculateLogMass 35
                / (calculateLogMass 40 + calculateLogMass 35) * 250)),
          mass := calculateLogMass 40, visualRadius := 40,
          color := "#ef4444", trail := [] } := by
  simp [createBinarySystem]

theorem createBinarySystem_getD_one (w h : ℝ) (now : ℤ) :
    (createBinarySystem w h now).getD 1 default
      = { id := now + 1,
          x := w / 2
            + calculateLogMass 40
                / (calculateLogMass 40 + calculateLogMass 35) * 250,
          y := h / 2, vx := 0,
          vy := Real.sqrt
              (G * (calculateLogMass 40 + calculateLogMass 35)
                / 250 ^ (3 : ℕ))
            * (calculateLogMass 40
                / (calculateLogMass 40 + calculateLogMass 35) * 250),
          mass := calculateLogMass 35, visualRadius := 35,
          color := "#a855f7", trail := [] } := by
  simp [createBinarySystem]

/-- Claim C3: the binary-system generator produces exactly two bodies on
opposite sides of their common barycenter (which sits at the canvas center),
with `m1 * r1 = m2 * r2` exactly, and with oppositely directed tangential
speeds `v_i = omega * r_i` for `omega = sqrt(G * M_total / separation^3)`
at `separation = 250`. -/
theorem createBinarySystem_barycenter (w h : ℝ) (now : ℤ) :
    (createBinarySystem w h now).length = 2
    ∧ ((createBinarySystem w h now).getD 0 default).mass = calculateLogMass 40
    ∧ ((createBinarySystem w h now).getD 1 default).mass = calculateLogMass 35
    ∧ (((createBinarySystem w h now).getD 0 default).mass
            * ((createBinarySystem w h now).getD 0 default).x
          + ((createBinarySystem w h now).getD 1 default).mass
            * ((createBinarySystem w h now).getD 1 default).x)
        / (((createBinarySystem w h now).getD 0 default).mass
            + ((createBinarySystem w h now).getD 1 default).mass) = w / 2
    ∧ ((createBinarySystem w h now).getD 0 default).y = h / 2
    ∧ ((createBinarySystem w h now).getD 1 default).y = h / 2
    ∧ ((createBinarySystem w h now).getD 0 default).x < w / 2
    ∧ w / 2 < ((createBinarySystem w h now).getD 1 default).x
    ∧ ((createBinarySystem w h now).getD 0 default).mass
          * (w / 2 - ((createBinarySystem w h now).getD 0 default).x)
        = ((createBinarySystem w h now).getD 1 default).mass
          * (((createBinarySystem w h now).getD 1 default).x - w / 2)
    ∧ ((createBinarySystem w h now).getD 0 default).vx = 0
    ∧ ((createBinarySystem w h now).getD 1 default).vx = 0
    ∧ ((createBinarySystem w h now).getD 0 default).vy
        = -(Real.sqrt
              (G * (((createBinarySystem w h now).getD 0 default).mass
                  + ((createBinarySystem w h now).getD 1 default).mass)
                / 250 ^ (3 : ℕ))
            * (w / 2 - ((createBinarySystem w h now).getD 0 default).x))
    ∧ ((createBinarySystem w h now).getD 1 default).vy
        = Real.sqrt
              (G * (((createBinarySystem w h now).getD 0 default).mass
                  + ((createBinarySystem w h now).getD 1 default).mass)
                / 250 ^ (3 : ℕ))
            * (((createBinarySystem w h now).getD 1 default).x - w / 2)
    ∧ ((createBinarySystem w h now).getD 0 default).vy < 0
    ∧ 0 < ((createBinarySystem w h now).getD 1 default).vy := by
  rw [createBinarySystem_getD_zero, createBinarySystem_getD_one]
  have hA : 0 < calculateLogMass 40 := calculateLogMass_pos 40
  have hB : 0 < calculateLogMass 35 := calculateLogMass_pos 35
  have hAB : 0 < calculateLogMass 40 + calculateLogMass 35 := by linarith
  have hG : 0 < G := by norm_num [G]
  have homega : 0 < Real.sqrt
      (G * (calculateLogMass 40 + calculateLogMass 35) / 250 ^ (3 : ℕ)) :=
    Real.sqrt_pos.2 (div_pos (mul_pos hG hAB) (by norm_num))
  have hr1 : 0 < calculateLogMass 35
      / (calculateLogMass 40 + calculateLogMass 35) * 250 :=
    mul_pos (div_pos hB hAB) (by norm_num)
  have hr2 : 0 < calculateLogMass 40
      / (calculateLogMass 40 + calculateLogMass 35) * 250 :=
    mul_pos (div_pos hA hAB) (by norm_num)
  refine ⟨by simp [createBinarySystem], rfl, rfl, ?_, rfl, rfl,
    sub_lt_self _ hr1, lt_add_of_pos_right _ hr2, ?_, rfl, rfl, ?_, ?_,
    neg_lt_zero.2 (mul_pos homega hr1), mul_pos homega hr2⟩
  · field_simp
    ring
  · field_simp
    ring
  · ring_nf
  · ring_nf

/-- Claim C6: clicking ENGAGE (the only caller of `setIsRunning(true)`) while
the registry holds fewer than 2 bodies is a silent no-op: the state is
unchanged and in particular `isRunning` remains `false`. -/
theorem engage_noop_under_two_bodies (s : SimState)
    (hn : s.bodies.length < 2) (hrun : s.isRunning = false) :
    toggleRunning s = s ∧ (toggleRunning s).isRunning = false := by
  have hs : toggleRunning s = s := by
    unfold toggleRunning
    rw [if_pos hn]
  exact ⟨hs, by rw [hs, hrun]⟩

/-- Witness for C6 at the empty initial state. -/
theorem engage_noop_under_two_bodies_witness :
    initialState.bodies.length < 2 ∧ initialState.isRunning = false ∧
      (toggleRunning initialState = initialState
       ∧ (toggleRunning initialState).isRunning = false) :=
  ⟨by decide, rfl, engage_noop_under_two_bodies initialState (by decide) rfl⟩

noncomputable def c4State : SimState :=
  { bodies := [exBody1], isRunning := true, mode := Mode.idle,
    tempBody := none, tempVelocity := none }

/-- Counterexample to claim C4 as stated: clicking the FIGURE-8 scenario from
a state with a non-empty registry and `isRunning = true` does not produce a
3-body registry with `isRunning = false`; the click is ignored (the scenario
button is disabled while running) and the state is unchanged. -/
theorem figure8_while_running_unchanged :
    createFigure8 800 600 0 c4State = c4State
    ∧ ¬ ((createFigure8 800 600 0 c4State).bodies.length = 3
         ∧ (createFigure8 800 600 0 c4State).isRunning = false) := by
  have hs : createFigure8 800 600 0 c4State = c4State := by
    unfold createFigure8
    rw [if_pos (by rfl)]
  refine ⟨hs, ?_⟩
  rw [hs]
  intro hcontra
  simpa [c4State] using hcontra.2

/-- Claim C4 amended: clicking the FIGURE-8 scenario while the Integrator is
not running (the only time the UI delivers the click, the button being
disabled otherwise) replaces the registry with exactly 3 equal-mass bodies,
leaves `isRunning` false, and returns the placement protocol to idle with no
pending values; while running the click is ignored and the state unchanged. -/
theorem figure8_click_replaces_registry (w h : ℝ) (now : ℤ) (s : SimState)
    (hrun : s.isRunning = false) :
    (createFigure8 w h now s).bodies.length = 3
    ∧ (∀ b ∈ (createFigure8 w h now s).bodies, b.mass = calculateLogMass 30)
    ∧ (createFigure8 w h now s).isRunning = false
    ∧ (createFigure8 w h now s).mode = Mode.idle
    ∧ (createFigure8 w h now s).tempBody = none
    ∧ (createFigure8 w h now s).tempVelocity = none := by
  have hs : createFigure8 w h now s
      = { s with bodies := figure8Bodies w h now, mode := Mode.idle,
                 tempBody := none, tempVelocity := none } := by
    unfold createFigure8
    rw [if_neg (by rw [hrun]; exact Bool.false_ne_true)]
  rw [hs]
  refine ⟨by simp [figure8Bodies], ?_, hrun, rfl, rfl, rfl⟩
  intro b hb
  simp [figure8Bodies] at hb
  rcases hb with hb | hb | hb <;> rw [hb]

/-- Witness for the amended C4 at the initial state. -/
theorem figure8_click_replaces_registry_witness :
    initialState.isRunning = false ∧
      ((createFigure8 800 600 0 initialState).bodies.length = 3
       ∧ (∀ b ∈ (createFigure8 800 600 0 initialState).bodies,
            b.mass = calculateLogMass 30)
       ∧ (createFigure8 800 600 0 initialState).isRunning = false
       ∧ (createFigure8 800 600 0 initialState).mode = Mode.idle
       ∧ (createFigure8 800 600 0 initialState).tempBody = none
       ∧ (createFigure8 800 600 0 initialState).tempVelocity = none) :=
  ⟨rfl, figure8_click_replaces_registry 800 600 0 initialState rfl⟩

noncomputable def c7State : SimState :=
  handleMouseUp 0 (handleMouseDown 50 60 initialState)

/-- Counterexample to claim C7 as stated: after pointer-down and pointer-up
with no movement the protocol is in velocity mode with `tempVelocity` still
unset, and a further pointer-up with no prior movement in that state appends
no body and leaves the protocol in velocity mode instead of finalizing. -/
theorem velocity_up_without_move_ignored :
    c7State.mode = Mode.velocity
    ∧ (handleMouseUp 1 c7State).bodies.length = 0
    ∧ (handleMouseUp 1 c7State).mode = Mode.velocity := by
  have h1 : handleMouseDown 50 60 initialState
      = { bodies := [], isRunning := false, mode := Mode.position,
          tempBody := some { x := 50, y := 60, r := 10 },
          tempVelocity := none } := by
    simp [handleMouseDown, initialState]
  have h2 : c7State
      = { bodies := [], isRunning := false, mode := Mode.velocity,
          tempBody := some { x := 50, y := 60, r := 10 },
          tempVelocity := none } := by
    unfold c7State
    rw [h1]
    simp [handleMouseUp]
  have h3 : handleMouseUp 1 c7State = c7State := by
    rw [h2]
    simp [handleMouseUp]
  rw [h3, h2]
  exact ⟨rfl, rfl, rfl⟩

/-- Claim C7 amended: a pointer-up in `PlacingPosition` with no prior
movement still proceeds normally to `PlacingVelocity`; a pointer-up in
`PlacingVelocity` with no pointer movement in that state is ignored (the
velocity target is unset): no body is appended and the protocol stays in
`PlacingVelocity`; once any movement has set a velocity target, pointer-up
finalizes and appends the body with velocity `(target - anchor) * 0.03`
(zero velocity when the pointer returned to the anchor) and the protocol
returns to idle. -/
theorem mouse_up_edge_cases (s : SimState) (now : ℤ) (tb : TempBody)
    (tv : ℝ × ℝ) (hrun : s.isRunning = false) (htb : s.tempBody = some tb) :
    (s.mode = Mode.position →
      (handleMouseUp now s).mode = Mode.velocity
      ∧ (handleMouseUp now s).bodies = s.bodies
      ∧ (handleMouseUp now s).tempBody = s.tempBody)
    ∧ (s.mode = Mode.velocity → s.tempVelocity = none →
        handleMouseUp now s = s)
    ∧ (s.mode = Mode.velocity → s.tempVelocity = some tv →
        (handleMouseUp now s).bodies
          = s.bodies
            ++ [{ id := now, x := tb.x, y := tb.y,
                  vx := (tv.1 - tb.x) * 0.03, vy := (tv.2 - tb.y) * 0.03,
                  mass := calculateLogMass tb.r, visualRadius := tb.r,
                  color := COLORS.getD (s.bodies.length % COLORS.length) "",
                  trail := [] }]
        ∧ (handleMouseUp now s).mode = Mode.idle
        ∧ (handleMouseUp now s).tempBody = none
        ∧ (handleMouseUp now s).tempVelocity = none) := by
  obtain ⟨bo, ru, mo, otb, otv⟩ := s
  simp only at hrun htb
  subst hrun
  subst htb
  refine ⟨fun hmode => ?_, fun hmode hv => ?_, fun hmode hv => ?_⟩
  · simp only at hmode
    subst hmode
    simp [handleMouseUp]
  · simp only at hmode hv
    subst hmode
    subst hv
    simp [handleMouseUp]
  · simp only at hmode hv
    subst hmode
    subst hv
    simp [handleMouseUp]

noncomputable def c7PosState : SimState :=
  { bodies := [], isRunning := false, mode := Mode.position,
    tempBody := some { x := 50, y := 60, r := 10 }, tempVelocity := none }

noncomputable def c7VelState : SimState :=
  { bodies := [], isRunning := false, mode := Mode.velocity,
    tempBody := some { x := 50, y := 60, r := 10 },
    tempVelocity := some (50, 60) }

/-- Witness for the amended C7: a no-movement pointer-up in position mode
reaches velocity mode, and a pointer-up with a velocity target at the anchor
finalizes to idle. -/
theorem mouse_up_edge_cases_witness :
    c7PosState.isRunning = false
    ∧ c7PosState.tempBody = some { x := 50, y := 60, r := 10 }
    ∧ c7PosState.mode = Mode.position
    ∧ (handleMouseUp 7 c7PosState).mode = Mode.velocity
    ∧ c7VelState.isRunning = false
    ∧ c7VelState.tempBody = some { x := 50, y := 60, r := 10 }
    ∧ c7VelState.mode = Mode.velocity
    ∧ c7VelState.tempVelocity = some (50, 60)
    ∧ (handleMouseUp 7 c7VelState).mode = Mode.idle :=
  ⟨rfl, rfl, rfl,
    ((mouse_up_edge_cases c7PosState 7 { x := 50, y := 60, r := 10 } (50, 60)
        rfl rfl).1 rfl).1,
    rfl, rfl, rfl, rfl,
    (((mouse_up_edge_cases c7VelState 7 { x := 50, y := 60, r := 10 } (50, 60)
        rfl rfl).2.2 rfl rfl).2.1)⟩

/-- The event trace of claim C8: press at the origin, drag to distance 500,
release (fixing the radius), move back to the anchor, release (finalizing). -/
noncomputable def clampTrace : SimState :=
  handleMouseUp 1
    (handleMouseMove 0 0
      (handleMouseUp 0
        (handleMouseMove 500 0
          (handleMouseDown 0 0 initialState))))

theorem clampTrace_step1 :
    handleMouseDown 0 0 initialState
      = { bodies := [], isRunning := false, mode := Mode.position,
          tempBody := some { x := 0, y := 0, r := 10 },
          tempVelocity := none } := by
  simp [handleMouseDown, initialState]

theorem clampTrace_step2 :
    handleMouseMove 500 0 (handleMouseDown 0 0 initialState)
      = { bodies := [], isRunning := false, mode := Mode.position,
          tempBody := some { x := 0, y := 0, r := 100 },
          tempVelocity := none } := by
  rw [clampTrace_step1]
  simp only [handleMouseMove]
  have hd : Real.sqrt (((500 : ℝ) - 0) ^ (2 : ℕ) + ((0 : ℝ) - 0) ^ (2 : ℕ))
      = 500 := by
    rw [show ((500 : ℝ) - 0) ^ (2 : ℕ) + ((0 : ℝ) - 0) ^ (2 : ℕ)
        = (500 : ℝ) ^ (2 : ℕ) by norm_num]
    exact Real.sqrt_sq (by norm_num)
  simp [hd]
  norm_num

theorem clampTrace_eval :
    clampTrace
      = { bodies :=
            [{ id := 1, x := 0, y := 0, vx := (0 - 0) * 0.03,
               vy := (0 - 0) * 0.03, mass := calculateLogMass 100,
               visualRadius := 100, color := COLORS.getD (0 % 6) "",
               trail := [] }],
          isRunning := false, mode := Mode.idle,
          tempBody := none, tempVelocity := none } := by
  unfold clampTrace
  rw [clampTrace_step2]
  simp [handleMouseUp, handleMouseMove, COLORS]

/-- Claim C8: during position placement the pending radius is always the
pointer's distance from the anchor clamped into [10, 100]; dragging to
distance 500 yields a finalized body with `visualRadius = 100`; and the Mass
Model is strictly monotonic and strictly positive on [10, 100]. -/
theorem placement_clamp_and_mass_monotonic (s : SimState) (x y : ℝ)
    (tb : TempBody) (r1 r2 r : ℝ) (hrun : s.isRunning = false)
    (hmode : s.mode = Mode.position) (htb : s.tempBody = some tb)
    (h1 : 10 ≤ r1) (h12 : r1 < r2) (h2 : r2 ≤ 100) (hlo : 10 ≤ r)
    (hhi : r ≤ 100) :
    (handleMouseMove x y s).tempBody
      = some { tb with
          r := max 10 (min 100
            (Real.sqrt ((x - tb.x) ^ (2 : ℕ) + (y - tb.y) ^ (2 : ℕ)))) }
    ∧ (10 : ℝ) ≤ max 10 (min 100
        (Real.sqrt ((x - tb.x) ^ (2 : ℕ) + (y - tb.y) ^ (2 : ℕ))))
    ∧ max 10 (min 100
        (Real.sqrt ((x - tb.x) ^ (2 : ℕ) + (y - tb.y) ^ (2 : ℕ)))) ≤ 100
    ∧ (clampTrace.bodies.getD 0 default).visualRadius = 100
    ∧ clampTrace.bodies.length = 1
    ∧ calculateLogMass r1 < calculateLogMass r2
    ∧ 0 < calculateLogMass r := by
  obtain ⟨bo, ru, mo, otb, otv⟩ := s
  simp only at hrun hmode htb
  subst hrun
  subst hmode
  subst htb
  refine ⟨by simp [handleMouseMove], le_max_left _ _,
    max_le (by norm_num) (min_le_left _ _), ?_, ?_,
    calculateLogMass_strictMono h12, calculateLogMass_pos r⟩
  · rw [clampTrace_eval]
    simp
  · rw [clampTrace_eval]
    simp

noncomputable def c8State : SimState :=
  { bodies := [], isRunning := false, mode := Mode.position,
    tempBody := some { x := 0, y := 0, r := 10 }, tempVelocity := none }

/-- Witness for C8 at a concrete position-mode state and radii 10 < 40 ≤ 100. -/
theorem placement_clamp_and_mass_monotonic_witness :
    c8State.isRunning = false ∧ c8State.mode = Mode.position
    ∧ c8State.tempBody = some { x := 0, y := 0, r := 10 }
    ∧ (10 : ℝ) ≤ 10 ∧ (10 : ℝ) < 40 ∧ (40 : ℝ) ≤ 100
    ∧ (10 : ℝ) ≤ 55 ∧ (55 : ℝ) ≤ 100
    ∧ (clampTrace.bodies.getD 0 default).visualRadius = 100
    ∧ calculateLogMass 10 < calculateLogMass 40
    ∧ 0 < calculateLogMass 55 := by
  have happ := placement_clamp_and_mass_monotonic c8State 3 4
    { x := 0, y := 0, r := 10 } 10 40 55 rfl rfl rfl (by norm_num)
    (by norm_num) (by norm_num) (by norm_num) (by norm_num)
  exact ⟨rfl, rfl, rfl, by norm_num, by norm_num, by norm_num, by norm_num,
    by norm_num, happ.2.2.2.1, happ.2.2.2.2.2.1, happ.2.2.2.2.2.2⟩
